import Mathlib

/-!
Formal model of the VETIAS College Bus Management System attendance engine
(`src/app.py`): the haversine geofence, boarding-token decode, live position
cache resolution, device binding, attendance recording and parent
notification dispatch, together with proofs about their behaviour.

Conventions of the embedding:
* Database tables become lists of records inside `SysState`; a SQLAlchemy
  commit whose new state would violate the `unique=True` constraint on
  `Student.device_id` (app.py line 76) raises, which the model renders as the
  old state being kept and the request failing.
* Python falsy tests on optional strings (`if not x`) become `pyFalsy`.
* A durable-store failure while committing the attendance row is injected via
  the `persistOk` flag; the source has no try/except around that commit, so
  the exception escapes the Flask handler as an HTTP 500 (`MAResult.serverError`).
* The SMTP transport outcome is injected via `Transport`.
-/

/-- A latitude/longitude pair (floats in the source, reals here). -/
structure Pos where
  lat : ℝ
  lng : ℝ

/-- The fields of the `Student` model that the attendance engine reads. -/
structure StudentRec where
  id : ℕ
  name : String
  device_id : Option String
  parent_email : String
deriving DecidableEq

/-- One row of the `Attendance` table as created by `mark_attendance`. -/
structure AttRecord where
  student_id : ℕ
  student_name : String
  method : String
  loc_verified : Bool
  bus_no : String
  latitude : ℝ
  longitude : ℝ
  device_id : String
  entry_method : String
  verification_status : String

/-- One row of the `NotificationLog` table. -/
structure NotifLog where
  recipient : String
  ntype : String
  subject : String
  status : String
  error_message : Option String
deriving DecidableEq

/-- The mutable state the attendance engine touches: the `Student` table, the
durable `BusLive` table, the in-memory `BUS_LOCATION_CACHE`, and the
`Attendance` table. -/
structure SysState where
  students : List StudentRec
  busLive : List (String × Pos)
  cache : List (String × Pos)
  attendance : List AttRecord

/-- Python truthiness test `not x` for an optional string: true on `None`
and on the empty string. -/
def pyFalsy : Option String → Bool
  | none => true
  | some s => s.isEmpty

/-- `Student.query.get(uid)`. -/
def lookupStudent (students : List StudentRec) (uid : ℕ) : Option StudentRec :=
  students.find? fun s => s.id == uid

/-- Keyed lookup in a position table (`BUS_LOCATION_CACHE.get` /
`BusLive.query.filter_by(bus_no=...).first()`). -/
def lookupPos (l : List (String × Pos)) (b : String) : Option Pos :=
  (l.find? fun p => p.1 == b).map fun p => p.2

/-- Assign `device_id` on every student row matching `uid`
(`student.device_id = ...`). -/
def setDevice (students : List StudentRec) (uid : ℕ) (d : Option String) :
    List StudentRec :=
  students.map fun s => if s.id = uid then { s with device_id := d } else s

/-- The `unique=True` constraint on `Student.device_id` (app.py line 76): all
non-null device identifiers in the table are pairwise distinct. A commit of a
state violating this raises `IntegrityError` and is rolled back. -/
def deviceOk (students : List StudentRec) : Prop :=
  (students.filterMap fun s => s.device_id).Nodup

instance (students : List StudentRec) : Decidable (deviceOk students) :=
  List.nodupDecidable _

/-- Degrees to radians, `math.radians`. -/
noncomputable def radians (d : ℝ) : ℝ := d * Real.pi / 180

/-- `haversine(lat1, lon1, lat2, lon2)` from app.py lines 134-149: great
circle distance in meters via the haversine formula, Earth radius 6371000 m. -/
noncomputable def haversine (lat1 lon1 lat2 lon2 : ℝ) : ℝ :=
  let rlat1 := radians lat1
  let rlon1 := radians lon1
  let rlat2 := radians lat2
  let rlon2 := radians lon2
  let dlon := rlon2 - rlon1
  let dlat := rlat2 - rlat1
  let a := Real.sin (dlat / 2) ^ 2 +
    Real.cos rlat1 * Real.cos rlat2 * Real.sin (dlon / 2) ^ 2
  let c := 2 * Real.arcsin (Real.sqrt a)
  c * 6371000

/-- Split a character list at the first `'_'`, keeping the remainder intact
(the semantics of Python `s.split('_', 1)` when it yields two parts). -/
def splitFirstAux : List Char → Option (List Char × List Char)
  | [] => none
  | c :: cs =>
    if c = '_' then some ([], cs)
    else
      match splitFirstAux cs with
      | none => none
      | some (a, b) => some (c :: a, b)

/-- `bus_no_qr, timestamp_qr = qr_data.split('_', 1)` (app.py line 440):
yields the text before the first underscore and everything after it; fails
(raising `ValueError`, caught at line 441) when no underscore is present.
The timestamp half is never validated further by the source. -/
def decodeToken (s : String) : Option (String × String) :=
  match splitFirstAux s.data with
  | none => none
  | some (a, b) => some (String.mk a, String.mk b)

/-- Modelled from the spec: the spec's token format is "an ISO-8601-like
instant" with concrete example `2024-01-01T10:00:00`; this predicate accepts
exactly strings starting with that `YYYY-MM-DDTHH:MM:SS` shape. The source
contains no instant validation, so this spec-side predicate exists only to
compare the spec's decode contract against `decodeToken`. -/
def isISOInstant (s : String) : Bool :=
  match s.data with
  | y1 :: y2 :: y3 :: y4 :: c1 :: m1 :: m2 :: c2 :: d1 :: d2 :: t ::
      h1 :: h2 :: c3 :: n1 :: n2 :: c4 :: s1 :: s2 :: _ =>
    ([y1, y2, y3, y4, m1, m2, d1, d2, h1, h2, n1, n2, s1, s2].all Char.isDigit)
      && c1 == '-' && c2 == '-' && t == 'T' && c3 == ':' && c4 == ':'
  | _ => false

/-- Resolution of a bus position for verification (app.py lines 445-457):
the in-memory cache entry is preferred; the durable `BusLive` row is the
fallback; absence of both is a failure. -/
def resolvePos (st : SysState) (bus : String) : Option Pos :=
  match lookupPos st.cache bus with
  | some p => some p
  | none => lookupPos st.busLive bus

/-- Outcome of a `/api/mark-attendance` request. `geofenceFail` carries the
truncated distance interpolated into the rejection message
(`int(distance)` at line 468); `serverError` is an exception escaping the
handler (HTTP 500). -/
inductive MAResult where
  | invalidQR
  | busUnavailable
  | geofenceFail (dist : ℤ)
  | missingDevice
  | deviceMismatch
  | success
  | serverError
deriving DecidableEq

/-- The HTTP status each outcome is surfaced with: `jsonify(...), 403` for a
device mismatch (line 481), an unhandled exception becomes 500, and every
other response is returned without an explicit status, i.e. 200. -/
def MAResult.httpStatus : MAResult → ℕ
  | .deviceMismatch => 403
  | .serverError => 500
  | _ => 200

/-- The `Attendance` row built at app.py lines 485-496. -/
def mkRecord (s : StudentRec) (bus : String) (lat lng : ℝ) (d : String) :
    AttRecord :=
  { student_id := s.id
    student_name := s.name
    method := "QR"
    loc_verified := true
    bus_no := bus
    latitude := lat
    longitude := lng
    device_id := d
    entry_method := "QR"
    verification_status := "VERIFIED" }

/-- Steps 4-5 of `mark_attendance` (app.py lines 470-498): the device
presence check, the bind-on-first-use / match / mismatch gate, and the
attendance-row commit. The first-use bind commits separately (line 478)
before the attendance commit (line 498); either commit failing raises with
no handler in scope. -/
def deviceGate (st : SysState) (uid : ℕ) (bus : String) (lat lng : ℝ)
    (dev : Option String) (persistOk : Bool) : SysState × MAResult :=
  if pyFalsy dev then (st, .missingDevice)
  else
    let d := dev.getD ""
    match lookupStudent st.students uid with
    | none => (st, .serverError)
    | some student =>
      match student.device_id with
      | none =>
        let students' := setDevice st.students uid (some d)
        if deviceOk students' then
          let st' := { st with students := students' }
          if persistOk then
            ({ st' with attendance :=
                st'.attendance ++ [mkRecord student bus lat lng d] }, .success)
          else (st', .serverError)
        else (st, .serverError)
      | some bound =>
        if bound = d then
          if persistOk then
            ({ st with attendance :=
                st.attendance ++ [mkRecord student bus lat lng d] }, .success)
          else (st, .serverError)
        else (st, .deviceMismatch)

open Classical in
/-- The `/api/mark-attendance` handler (app.py lines 428-520), up to the
response: decode the token, resolve the bus position (cache first, durable
row second), apply the strict 15 m geofence, then run the device gate and
record the attendance row. The geofence-fail branch dereferences
`student.name` (line 467), so a missing student raises there; the
missing-device branch (lines 472-474) does not touch the student row. -/
noncomputable def markAttendance (st : SysState) (uid : ℕ)
    (qr_data : Option String) (lat lng : ℝ) (dev : Option String)
    (persistOk : Bool) : SysState × MAResult :=
  match qr_data with
  | none => (st, .invalidQR)
  | some qr =>
    match decodeToken qr with
    | none => (st, .invalidQR)
    | some (bus_no_qr, _ts) =>
      match resolvePos st bus_no_qr with
      | none => (st, .busUnavailable)
      | some master =>
        let distance := haversine lat lng master.lat master.lng
        if distance > 15 then
          match lookupStudent st.students uid with
          | none => (st, .serverError)
          | some _ => (st, .geofenceFail ⌊distance⌋)
        else deviceGate st uid bus_no_qr lat lng dev persistOk

/-- Outcome of the student branch of `/login`. -/
inductive LoginResult where
  | success
  | invalidCredentials
  | wrongDevice
  | deviceUnverified
  | locked
deriving DecidableEq

/-- The device-binding portion of the student login (app.py lines 359-393):
an existing non-empty binding is compared against the incoming identifier
(unless `SKIP_DEVICE_CHECK`); otherwise a first-time bind is attempted, and
an `IntegrityError` on commit (device already bound to another account) is
rolled back and surfaced as a lockout. -/
def loginBind (students : List StudentRec) (uid : ℕ) (dev : Option String)
    (skipCheck : Bool) : List StudentRec × LoginResult :=
  match lookupStudent students uid with
  | none => (students, .invalidCredentials)
  | some student =>
    if !pyFalsy student.device_id && !skipCheck then
      if student.device_id = dev then (students, .success)
      else (students, .wrongDevice)
    else
      if pyFalsy dev then (students, .deviceUnverified)
      else
        let students' := setDevice students uid dev
        if deviceOk students' then (students', .success)
        else (students, .locked)

/-- `/api/reset-device/<id>` (app.py lines 728-756): nulls the binding of an
existing student. -/
def resetDevice (students : List StudentRec) (sid : ℕ) :
    List StudentRec × Bool :=
  match lookupStudent students sid with
  | none => (students, false)
  | some _ => (setDevice students sid none, true)

/-- SMTP configuration read from the environment by `send_parent_email`. -/
structure SmtpEnv where
  smtp_user : Option String
  smtp_pass : Option String
  email_mode : Bool

/-- Injected outcome of the SMTP transaction at app.py lines 243-254. -/
inductive Transport where
  | ok
  | err (msg : String)

/-- `'@' in parent_email` guard of app.py line 190 (negated): the recipient
is non-empty and contains an `'@'` character. -/
def emailValid (e : String) : Bool := !e.isEmpty && e.data.contains '@'

/-- Subject line built at app.py line 196. -/
def boardingSubject (student_name : String) : String :=
  "🚌 VET IAS Transport: Boarding Confirmation (" ++ student_name ++ ")"

/-- `NotificationService.log_notification` (app.py lines 156-170): appends
one row to the `NotificationLog` table. -/
def logNotification (logs : List NotifLog)
    (recipient ntype subject status : String) (error : Option String) :
    List NotifLog :=
  logs ++ [{ recipient := recipient, ntype := ntype, subject := subject,
             status := status, error_message := error }]

/-- `NotificationService.send_parent_email` (app.py lines 172-265): missing
SMTP credentials or `EMAIL_MODE` off return `False` with no log entry; an
invalid recipient logs one `Failed` entry; an attempted transmission logs one
`Sent` or one `Failed` entry according to the transport outcome. -/
def sendParentEmail (env : SmtpEnv) (transport : Transport)
    (parent_email student_name : String) (logs : List NotifLog) :
    Bool × List NotifLog :=
  if pyFalsy env.smtp_user || pyFalsy env.smtp_pass then (false, logs)
  else if !env.email_mode then (false, logs)
  else if !emailValid parent_email then
    (false, logNotification logs
      (if parent_email.isEmpty then "Unknown" else parent_email)
      "Email" "Boarding Confirmation" "Failed" (some "Missing/Invalid Email"))
  else
    match transport with
    | .ok => (true, logNotification logs parent_email "Email"
        (boardingSubject student_name) "Sent" none)
    | .err e => (false, logNotification logs parent_email "Email"
        (boardingSubject student_name) "Failed" (some e))

/-- `student.parent_email` as captured at app.py line 501. -/
def getParentEmail (st : SysState) (uid : ℕ) : String :=
  match lookupStudent st.students uid with
  | some s => s.parent_email
  | none => ""

/-- `student.name` as captured at app.py line 502. -/
def getStudentName (st : SysState) (uid : ℕ) : String :=
  match lookupStudent st.students uid with
  | some s => s.name
  | none => ""

/-- The attendance flow together with the asynchronous notification it
spawns on success (app.py lines 500-520): the HTTP response and the
committed state are fixed before `send_parent_email` runs, and dispatch is
only triggered on the success path. -/
noncomputable def markAttendanceAndNotify (st : SysState) (uid : ℕ)
    (qr_data : Option String) (lat lng : ℝ) (dev : Option String)
    (persistOk : Bool) (env : SmtpEnv) (transport : Transport)
    (logs : List NotifLog) : SysState × MAResult × List NotifLog :=
  let r := markAttendance st uid qr_data lat lng dev persistOk
  match r.2 with
  | .success =>
    (r.1, .success,
      (sendParentEmail env transport (getParentEmail st uid)
        (getStudentName st uid) logs).2)
  | other => (r.1, other, logs)

/-- Count of `Failed` rows in the notification log. -/
def countFailed (logs : List NotifLog) : ℕ :=
  (logs.filter fun l => l.status == "Failed").length

/-- `haversine` at two identical points is zero. -/
theorem haversine_self (lat lng : ℝ) : haversine lat lng lat lng = 0 := by
  unfold haversine
  simp [sub_self, Real.sin_zero, Real.sqrt_zero, Real.arcsin_zero]

/-- `haversine` is symmetric in its two endpoints. -/
theorem haversine_comm (a b c d : ℝ) : haversine a b c d = haversine c d a b := by
  unfold haversine
  have hs : ∀ x y : ℝ, Real.sin ((x - y) / 2) ^ 2 = Real.sin ((y - x) / 2) ^ 2 := by
    intro x y
    rw [show (x - y) / 2 = -((y - x) / 2) by ring, Real.sin_neg, neg_sq]
  simp only []
  rw [hs (radians c) (radians a), hs (radians d) (radians b),
    mul_comm (Real.cos (radians a)) (Real.cos (radians c))]

/-- Concrete far pair: a point 90 degrees of longitude away on the equator is
a quarter of the Earth's circumference from the origin. -/
theorem haversine_quarter : haversine 0 90 0 0 = Real.pi / 2 * 6371000 := by
  unfold haversine radians
  have h0 : (0 : ℝ) * Real.pi / 180 = 0 := by ring
  have h90 : (90 : ℝ) * Real.pi / 180 = Real.pi / 2 := by ring
  rw [h0, h90]
  have harg : (0 - Real.pi / 2) / 2 = -(Real.pi / 4) := by ring
  have hsin : Real.sin (-(Real.pi / 4)) ^ 2 = 1 / 2 := by
    rw [Real.sin_neg, neg_sq, Real.sin_pi_div_four, div_pow,
      Real.sq_sqrt (by norm_num : (2:ℝ) ≥ 0)]
    norm_num
  have hself : Real.sin ((0 - 0 : ℝ) / 2) ^ 2 = 0 := by
    norm_num
  simp only [harg, hsin, hself, Real.cos_zero, one_mul, zero_add]
  have hsqrt : Real.sqrt (1 / 2) = Real.sqrt 2 / 2 := by
    rw [show (1 : ℝ) / 2 = (Real.sqrt 2 / 2) ^ 2 by
      rw [div_pow, Real.sq_sqrt (by norm_num : (2:ℝ) ≥ 0)]; norm_num]
    exact Real.sqrt_sq (by positivity)
  rw [hsqrt, ← Real.sin_pi_div_four,
    Real.arcsin_sin (by nlinarith [Real.pi_pos]) (by nlinarith [Real.pi_pos])]
  ring

/-- The concrete far pair exceeds the 15 m geofence. -/
theorem haversine_quarter_far : haversine 0 90 0 0 > 15 := by
  rw [haversine_quarter]
  nlinarith [Real.pi_gt_three]

/-- `splitFirstAux` fails exactly when the list has no underscore. -/
theorem splitFirstAux_none_iff (cs : List Char) :
    splitFirstAux cs = none ↔ '_' ∉ cs := by
  induction cs with
  | nil => simp [splitFirstAux]
  | cons c cs ih =>
    by_cases h : c = '_'
    · subst h; simp [splitFirstAux]
    · cases hs : splitFirstAux cs with
      | none =>
        have hni : '_' ∉ cs := (ih).mp hs
        simp only [splitFirstAux, if_neg h, hs, List.mem_cons]
        constructor
        · intro _ hc
          rcases hc with hc | hc
          · exact h hc.symm
          · exact hni hc
        · intro _; trivial
      | some p =>
        obtain ⟨a, b⟩ := p
        simp only [splitFirstAux, if_neg h, hs, List.mem_cons]
        refine iff_of_false (by simp) fun hnm => ?_
        have : '_' ∈ cs := by
          by_contra hni
          rw [ih.mpr hni] at hs
          cases hs
        exact hnm (Or.inr this)

/-- `decodeToken` fails exactly when the separator is absent. -/
theorem decodeToken_none_iff (s : String) :
    decodeToken s = none ↔ '_' ∉ s.data := by
  unfold decodeToken
  cases hs : splitFirstAux s.data with
  | none =>
    exact iff_of_true rfl ((splitFirstAux_none_iff s.data).mp hs)
  | some p =>
    obtain ⟨a, b⟩ := p
    refine iff_of_false (by simp) fun hni => ?_
    rw [(splitFirstAux_none_iff s.data).mpr hni] at hs
    cases hs

/-- When the token decodes, the bus resolves and the geofence passes, the
handler proceeds to the device gate. -/
theorem markAttendance_near (st : SysState) (uid : ℕ) (q bus ts : String)
    (m : Pos) (lat lng : ℝ) (dev : Option String) (pk : Bool)
    (hdec : decodeToken q = some (bus, ts))
    (hres : resolvePos st bus = some m)
    (hnear : ¬ haversine lat lng m.lat m.lng > 15) :
    markAttendance st uid (some q) lat lng dev pk =
      deviceGate st uid bus lat lng dev pk := by
  simp only [markAttendance, hdec, hres]
  rw [if_neg hnear]

/-- When the geofence fails, the handler rejects with the truncated distance
and changes nothing. -/
theorem markAttendance_far (st : SysState) (uid : ℕ) (q bus ts : String)
    (m : Pos) (student : StudentRec) (lat lng : ℝ) (dev : Option String)
    (pk : Bool)
    (hdec : decodeToken q = some (bus, ts))
    (hres : resolvePos st bus = some m)
    (hstud : lookupStudent st.students uid = some student)
    (hfar : haversine lat lng m.lat m.lng > 15) :
    markAttendance st uid (some q) lat lng dev pk =
      (st, .geofenceFail ⌊haversine lat lng m.lat m.lng⌋) := by
  simp only [markAttendance, hdec, hres, hstud]
  rw [if_pos hfar]

/-- Device gate, missing-identifier branch: reached before any student-row
access, so no hypothesis about the student or an existing binding is needed. -/
theorem deviceGate_missing (st : SysState) (uid : ℕ) (bus : String)
    (lat lng : ℝ) (dev : Option String) (pk : Bool)
    (hmiss : pyFalsy dev = true) :
    deviceGate st uid bus lat lng dev pk = (st, .missingDevice) := by
  simp only [deviceGate, hmiss]
  rfl

/-- Device gate, first-use bind: the binding commit happens first; the
attendance commit outcome decides between success and an escaping error. -/
theorem deviceGate_fresh (st : SysState) (uid : ℕ) (bus : String)
    (lat lng : ℝ) (d : String) (student : StudentRec) (pk : Bool)
    (hstud : lookupStudent st.students uid = some student)
    (hd : ¬ d.isEmpty = true)
    (hdev : student.device_id = none)
    (hok : deviceOk (setDevice st.students uid (some d))) :
    deviceGate st uid bus lat lng (some d) pk =
      if pk then
        ({ st with
            students := setDevice st.students uid (some d)
            attendance := st.attendance ++ [mkRecord student bus lat lng d] },
         .success)
      else
        ({ st with students := setDevice st.students uid (some d) },
         .serverError) := by
  simp only [deviceGate, pyFalsy, hstud, hdev, Option.getD]
  rw [if_neg hd, if_pos hok]

/-- Device gate, matching binding: no rebinding; the attendance commit
outcome decides the response. -/
theorem deviceGate_match (st : SysState) (uid : ℕ) (bus : String)
    (lat lng : ℝ) (d : String) (student : StudentRec) (pk : Bool)
    (hstud : lookupStudent st.students uid = some student)
    (hd : ¬ d.isEmpty = true)
    (hdev : student.device_id = some d) :
    deviceGate st uid bus lat lng (some d) pk =
      if pk then
        ({ st with attendance := st.attendance ++ [mkRecord student bus lat lng d] },
         .success)
      else (st, .serverError) := by
  simp only [deviceGate, pyFalsy, hstud, hdev, Option.getD]
  rw [if_neg hd]
  simp

/-- Device gate, differing binding: rejected, nothing changes. -/
theorem deviceGate_mismatch (st : SysState) (uid : ℕ) (bus : String)
    (lat lng : ℝ) (a d : String) (student : StudentRec) (pk : Bool)
    (hstud : lookupStudent st.students uid = some student)
    (hd : ¬ d.isEmpty = true)
    (hdev : student.device_id = some a)
    (hne : a ≠ d) :
    deviceGate st uid bus lat lng (some d) pk = (st, .deviceMismatch) := by
  simp only [deviceGate, pyFalsy, hstud, hdev, Option.getD]
  rw [if_neg hd, if_neg hne]

/-- The geofence passes trivially when claimed and resolved points coincide. -/
theorem haversine_origin_near : ¬ haversine 0 0 0 0 > 15 := by
  rw [haversine_self]
  norm_num

/-- Demo student with no device binding (the seeded `student1`). -/
def demoStudent : StudentRec :=
  { id := 1, name := "student1", device_id := none,
    parent_email := "parent@example.com" }

/-- Demo state: one unbound student; bus Bus-10 cached at the origin. -/
def demoState : SysState :=
  { students := [demoStudent], busLive := [],
    cache := [("Bus-10", ⟨0, 0⟩)], attendance := [] }

/-- Demo student bound to device devA. -/
def boundStudent : StudentRec :=
  { id := 1, name := "student1", device_id := some "devA",
    parent_email := "parent@example.com" }

/-- A second student, bound to devB. -/
def otherStudent : StudentRec :=
  { id := 2, name := "student2", device_id := some "devB",
    parent_email := "parent2@example.com" }

/-- Demo state with two students whose devices are already bound. -/
def boundState : SysState :=
  { students := [boundStudent, otherStudent], busLive := [],
    cache := [("Bus-10", ⟨0, 0⟩)], attendance := [] }

/-- Demo state where the cache and the durable snapshot disagree. -/
def conflictState : SysState :=
  { students := [demoStudent], busLive := [("Bus-10", ⟨10, 10⟩)],
    cache := [("Bus-10", ⟨0, 0⟩)], attendance := [] }

/-- C1: for every boarding attempt whose token decodes and whose bus position
resolves, a distance above 15 m is rejected with the geofence rejection whose
detail carries the computed (truncated) distance, and neither an attendance
record nor a device binding is created or changed. -/
theorem geofence_rejects_far_attempt (st : SysState) (uid : ℕ)
    (q bus ts : String) (m : Pos) (student : StudentRec) (lat lng : ℝ)
    (dev : Option String) (pk : Bool)
    (hdec : decodeToken q = some (bus, ts))
    (hres : resolvePos st bus = some m)
    (hstud : lookupStudent st.students uid = some student)
    (hfar : haversine lat lng m.lat m.lng > 15) :
    markAttendance st uid (some q) lat lng dev pk =
      (st, .geofenceFail ⌊haversine lat lng m.lat m.lng⌋) ∧
    (markAttendance st uid (some q) lat lng dev pk).1.attendance =
      st.attendance ∧
    (markAttendance st uid (some q) lat lng dev pk).1.students =
      st.students := by
  have h := markAttendance_far st uid q bus ts m student lat lng dev pk
    hdec hres hstud hfar
  exact ⟨h, by rw [h], by rw [h]⟩

/-- C1 witness: the student claims (0°, 90°), a quarter circumference from
the cached bus position at the origin. -/
theorem geofence_rejects_far_attempt_witness :
    haversine 0 90 0 0 > 15 ∧
    markAttendance demoState 1 (some "Bus-10_2024-01-01T10:00:00") 0 90
        (some "devA") true =
      (demoState, .geofenceFail ⌊haversine 0 90 0 0⌋) :=
  ⟨haversine_quarter_far,
    (geofence_rejects_far_attempt demoState 1 "Bus-10_2024-01-01T10:00:00"
      "Bus-10" "2024-01-01T10:00:00" ⟨0, 0⟩ demoStudent 0 90 (some "devA")
      true (by decide) rfl rfl haversine_quarter_far).1⟩

/-- C2 counterexample: the source never parses the instant half of a token,
so a token whose instant is not ISO-8601-like still decodes, contrary to the
claim that decode fails when the instant does not parse. (`isISOInstant` is
the spec-side instant shape; the third conjunct shows it accepts the spec's
own example, so the refutation is not an artifact of the predicate.) -/
theorem decode_accepts_unparsable_instant :
    decodeToken "Bus-10_notatime" = some ("Bus-10", "notatime") ∧
    isISOInstant "notatime" = false ∧
    isISOInstant "2024-01-01T10:00:00" = true :=
  ⟨by decide, by decide, by decide⟩

/-- C2 (amended): decode returns the pair (busId, remainder); it fails
exactly when the separator is absent, and the instant half is not validated.
The concrete scenarios hold as claimed. -/
theorem decode_pair_and_failure_condition :
    decodeToken "Bus-10_2024-01-01T10:00:00" =
      some ("Bus-10", "2024-01-01T10:00:00") ∧
    decodeToken "garbage" = none ∧
    ∀ s : String, decodeToken s = none ↔ '_' ∉ s.data :=
  ⟨by decide, by decide, decodeToken_none_iff⟩

/-- C9: the great-circle distance function is a total function on real
coordinates, vanishes on identical points, and is symmetric. -/
theorem geodistance_zero_and_symm :
    (∀ lat lng : ℝ, haversine lat lng lat lng = 0) ∧
    (∀ a b c d : ℝ, haversine a b c d = haversine c d a b) :=
  ⟨haversine_self, haversine_comm⟩

/-- The device gate never produces the bus-unavailable rejection. -/
theorem deviceGate_ne_busUnavailable (st : SysState) (uid : ℕ) (bus : String)
    (lat lng : ℝ) (dev : Option String) (pk : Bool) :
    (deviceGate st uid bus lat lng dev pk).2 ≠ .busUnavailable := by
  simp only [deviceGate]
  repeat' split
  all_goals simp

/-- C5: position resolution prefers the in-memory cache entry; on a cache
miss it falls back to the durable snapshot; the attempt is rejected as
bus-unavailable when both are absent, and only then. -/
theorem position_resolution_order (st : SysState) (bus : String) :
    (∀ p, lookupPos st.cache bus = some p → resolvePos st bus = some p) ∧
    (lookupPos st.cache bus = none →
      resolvePos st bus = lookupPos st.busLive bus) ∧
    (lookupPos st.cache bus = none → lookupPos st.busLive bus = none →
      ∀ (uid : ℕ) (q ts : String) (lat lng : ℝ) (dev : Option String)
        (pk : Bool), decodeToken q = some (bus, ts) →
        markAttendance st uid (some q) lat lng dev pk =
          (st, .busUnavailable)) ∧
    (∀ p, resolvePos st bus = some p →
      ∀ (uid : ℕ) (q ts : String) (lat lng : ℝ) (dev : Option String)
        (pk : Bool), decodeToken q = some (bus, ts) →
        (markAttendance st uid (some q) lat lng dev pk).2 ≠
          .busUnavailable) := by
  refine ⟨?_, ?_, ?_, ?_⟩
  · intro p hp
    simp [resolvePos, hp]
  · intro h
    simp [resolvePos, h]
  · intro hc hb uid q ts lat lng dev pk hdec
    have hres : resolvePos st bus = none := by simp [resolvePos, hc, hb]
    simp only [markAttendance, hdec, hres]
  · intro p hres uid q ts lat lng dev pk hdec
    simp only [markAttendance, hdec, hres]
    split
    · split
      all_goals simp
    · exact deviceGate_ne_busUnavailable st uid bus lat lng dev pk

/-- C5 witness: the cache entry wins over a disagreeing durable snapshot,
and an absent bus yields the bus-unavailable rejection. -/
theorem position_resolution_order_witness :
    resolvePos conflictState "Bus-10" = some ⟨0, 0⟩ ∧
    resolvePos (SysState.mk [demoStudent] [("Bus-10", ⟨0, 0⟩)] [] []) "Bus-10"
      = lookupPos [("Bus-10", (⟨0, 0⟩ : Pos))] "Bus-10" ∧
    markAttendance (SysState.mk [demoStudent] [] [] []) 1
        (some "Bus-10_2024-01-01T10:00:00") 0 0 (some "devA") true =
      (SysState.mk [demoStudent] [] [] [], .busUnavailable) ∧
    (markAttendance conflictState 1 (some "Bus-10_2024-01-01T10:00:00") 0 0
        (some "devA") true).2 ≠ .busUnavailable :=
  ⟨(position_resolution_order conflictState "Bus-10").1 ⟨0, 0⟩ rfl,
    (position_resolution_order
      (SysState.mk [demoStudent] [("Bus-10", ⟨0, 0⟩)] [] []) "Bus-10").2.1 rfl,
    (position_resolution_order (SysState.mk [demoStudent] [] [] [])
      "Bus-10").2.2.1 rfl rfl 1 "Bus-10_2024-01-01T10:00:00"
      "2024-01-01T10:00:00" 0 0 (some "devA") true (by decide),
    (position_resolution_order conflictState "Bus-10").2.2.2 ⟨0, 0⟩ rfl 1
      "Bus-10_2024-01-01T10:00:00" "2024-01-01T10:00:00" 0 0 (some "devA")
      true (by decide)⟩

/-- C3: the device-binding gate of a boarding attempt whose earlier gates
pass yields exactly the four specified outcomes: first-use bind on a fresh
student, repeatable success without rebinding on a matching device, a
mismatch denial on a differing device, and a missing-device denial when no
identifier is supplied and no binding exists. -/
theorem device_binding_gate_outcomes (st : SysState) (uid : ℕ)
    (q bus ts : String) (m : Pos) (student : StudentRec) (lat lng : ℝ)
    (hdec : decodeToken q = some (bus, ts))
    (hres : resolvePos st bus = some m)
    (hstud : lookupStudent st.students uid = some student)
    (hnear : ¬ haversine lat lng m.lat m.lng > 15) :
    (∀ d : String, ¬ d.isEmpty = true → student.device_id = none →
      deviceOk (setDevice st.students uid (some d)) →
      markAttendance st uid (some q) lat lng (some d) true =
        ({ st with
            students := setDevice st.students uid (some d)
            attendance := st.attendance ++ [mkRecord student bus lat lng d] },
         .success)) ∧
    (∀ d : String, ¬ d.isEmpty = true → student.device_id = some d →
      markAttendance st uid (some q) lat lng (some d) true =
        ({ st with
            attendance := st.attendance ++ [mkRecord student bus lat lng d] },
         .success) ∧
      (markAttendance st uid (some q) lat lng (some d) true).1.students =
        st.students ∧
      (markAttendance
          (markAttendance st uid (some q) lat lng (some d) true).1
          uid (some q) lat lng (some d) true).2 = .success) ∧
    (∀ a d : String, ¬ d.isEmpty = true → student.device_id = some a →
      a ≠ d →
      markAttendance st uid (some q) lat lng (some d) true =
        (st, .deviceMismatch)) ∧
    (student.device_id = none → ∀ dev : Option String, pyFalsy dev = true →
      markAttendance st uid (some q) lat lng dev true =
        (st, .missingDevice)) := by
  refine ⟨?_, ?_, ?_, ?_⟩
  · intro d hd hdev hok
    rw [markAttendance_near st uid q bus ts m lat lng (some d) true
      hdec hres hnear]
    rw [deviceGate_fresh st uid bus lat lng d student true hstud hd hdev hok]
    rfl
  · intro d hd hdev
    have key : ∀ st₂ : SysState, resolvePos st₂ bus = some m →
        lookupStudent st₂.students uid = some student →
        markAttendance st₂ uid (some q) lat lng (some d) true =
          ({ st₂ with
              attendance := st₂.attendance ++ [mkRecord student bus lat lng d] },
           .success) := by
      intro st₂ hres₂ hstud₂
      rw [markAttendance_near st₂ uid q bus ts m lat lng (some d) true
        hdec hres₂ hnear]
      rw [deviceGate_match st₂ uid bus lat lng d student true hstud₂ hd hdev]
      rfl
    have h1 := key st hres hstud
    refine ⟨h1, by rw [h1], ?_⟩
    rw [h1]
    have hres2 : resolvePos
        ({ st with
            attendance := st.attendance ++ [mkRecord student bus lat lng d] })
        bus = some m := hres
    have hstud2 : lookupStudent
        ({ st with
            attendance := st.attendance ++ [mkRecord student bus lat lng d] }).students
        uid = some student := hstud
    rw [key _ hres2 hstud2]
  · intro a d hd hdev hne
    rw [markAttendance_near st uid q bus ts m lat lng (some d) true
      hdec hres hnear]
    exact deviceGate_mismatch st uid bus lat lng a d student true
      hstud hd hdev hne
  · intro hdev dev hmiss
    rw [markAttendance_near st uid q bus ts m lat lng dev true
      hdec hres hnear]
    exact deviceGate_missing st uid bus lat lng dev true hmiss

/-- C3 witness: all four gate outcomes exercised at the origin demo states. -/
theorem device_binding_gate_outcomes_witness :
    (markAttendance demoState 1 (some "Bus-10_2024-01-01T10:00:00") 0 0
        (some "devA") true =
      ({ demoState with
          students := setDevice demoState.students 1 (some "devA")
          attendance := demoState.attendance ++
            [mkRecord demoStudent "Bus-10" 0 0 "devA"] }, .success)) ∧
    (markAttendance boundState 1 (some "Bus-10_2024-01-01T10:00:00") 0 0
        (some "devA") true =
      ({ boundState with
          attendance := boundState.attendance ++
            [mkRecord boundStudent "Bus-10" 0 0 "devA"] }, .success)) ∧
    (markAttendance
        (markAttendance boundState 1 (some "Bus-10_2024-01-01T10:00:00") 0 0
          (some "devA") true).1 1 (some "Bus-10_2024-01-01T10:00:00") 0 0
        (some "devA") true).2 = .success ∧
    (markAttendance boundState 1 (some "Bus-10_2024-01-01T10:00:00") 0 0
        (some "devX") true = (boundState, .deviceMismatch)) ∧
    (markAttendance demoState 1 (some "Bus-10_2024-01-01T10:00:00") 0 0
        none true = (demoState, .missingDevice)) := by
  have hA := device_binding_gate_outcomes demoState 1
    "Bus-10_2024-01-01T10:00:00" "Bus-10" "2024-01-01T10:00:00" ⟨0, 0⟩
    demoStudent 0 0 (by decide) rfl rfl haversine_origin_near
  have hB := device_binding_gate_outcomes boundState 1
    "Bus-10_2024-01-01T10:00:00" "Bus-10" "2024-01-01T10:00:00" ⟨0, 0⟩
    boundStudent 0 0 (by decide) rfl rfl haversine_origin_near
  exact ⟨hA.1 "devA" (by decide) rfl (by decide),
    (hB.2.1 "devA" (by decide) rfl).1,
    (hB.2.1 "devA" (by decide) rfl).2.2,
    hB.2.2.1 "devA" "devX" (by decide) rfl (by decide),
    hA.2.2.2 rfl none rfl⟩

/-- C4: a student bound to device A presenting a non-empty B ≠ A, with all
earlier gates passing, is rejected as a device mismatch with HTTP 403 — a
forbidden-like status distinct from the HTTP 200 used for the generic
validation rejections — creating no record and leaving the state unchanged. -/
theorem device_mismatch_rejection (st : SysState) (uid : ℕ)
    (q bus ts : String) (m : Pos) (student : StudentRec) (lat lng : ℝ)
    (a b : String) (pk : Bool)
    (hdec : decodeToken q = some (bus, ts))
    (hres : resolvePos st bus = some m)
    (hstud : lookupStudent st.students uid = some student)
    (hnear : ¬ haversine lat lng m.lat m.lng > 15)
    (hdev : student.device_id = some a)
    (hb : ¬ b.isEmpty = true) (hne : a ≠ b) :
    markAttendance st uid (some q) lat lng (some b) pk =
      (st, .deviceMismatch) ∧
    MAResult.deviceMismatch.httpStatus = 403 ∧
    MAResult.invalidQR.httpStatus = 200 ∧
    MAResult.busUnavailable.httpStatus = 200 ∧
    (∀ z : ℤ, (MAResult.geofenceFail z).httpStatus = 200) ∧
    MAResult.missingDevice.httpStatus = 200 := by
  refine ⟨?_, rfl, rfl, rfl, fun z => rfl, rfl⟩
  rw [markAttendance_near st uid q bus ts m lat lng (some b) pk
    hdec hres hnear]
  exact deviceGate_mismatch st uid bus lat lng a b student pk hstud hb hdev hne

/-- C4 witness: the bound demo student presents a different device. -/
theorem device_mismatch_rejection_witness :
    markAttendance boundState 1 (some "Bus-10_2024-01-01T10:00:00") 0 0
        (some "devZ") true = (boundState, .deviceMismatch) ∧
    MAResult.deviceMismatch.httpStatus = 403 :=
  have h := device_mismatch_rejection boundState 1
    "Bus-10_2024-01-01T10:00:00" "Bus-10" "2024-01-01T10:00:00" ⟨0, 0⟩
    boundStudent 0 0 "devA" "devZ" true (by decide) rfl rfl
    haversine_origin_near rfl (by decide) (by decide)
  ⟨h.1, h.2.1⟩

/-- C10 (implicit): an attempt supplying no device identifier (absent or
empty) is rejected as missing-device with no state change, independently of
any existing binding — the statement needs no hypothesis about the student
row, because the presence check precedes every access to it. -/
theorem missing_device_rejected_first (st : SysState) (uid : ℕ)
    (q bus ts : String) (m : Pos) (lat lng : ℝ) (dev : Option String)
    (pk : Bool)
    (hdec : decodeToken q = some (bus, ts))
    (hres : resolvePos st bus = some m)
    (hnear : ¬ haversine lat lng m.lat m.lng > 15)
    (hmiss : pyFalsy dev = true) :
    markAttendance st uid (some q) lat lng dev pk = (st, .missingDevice) := by
  rw [markAttendance_near st uid q bus ts m lat lng dev pk hdec hres hnear]
  exact deviceGate_missing st uid bus lat lng dev pk hmiss

/-- C10 witness: the empty identifier is rejected as missing even though the
student already holds a binding. -/
theorem missing_device_rejected_first_witness :
    boundStudent.device_id = some "devA" ∧
    markAttendance boundState 1 (some "Bus-10_2024-01-01T10:00:00") 0 0
        (some "") true = (boundState, .missingDevice) :=
  ⟨rfl, missing_device_rejected_first boundState 1
    "Bus-10_2024-01-01T10:00:00" "Bus-10" "2024-01-01T10:00:00" ⟨0, 0⟩ 0 0
    (some "") true (by decide) rfl haversine_origin_near rfl⟩

/-- C6: when the attendance-row commit fails right after a first-use binding
was committed for the same attempt, the handler surfaces an internal error
(HTTP 500) rather than a silent partial success: the response is not
success, and no attendance row exists while the binding does. -/
theorem attendance_persist_failure_surfaced (st : SysState) (uid : ℕ)
    (q bus ts : String) (m : Pos) (student : StudentRec) (lat lng : ℝ)
    (d : String)
    (hdec : decodeToken q = some (bus, ts))
    (hres : resolvePos st bus = some m)
    (hstud : lookupStudent st.students uid = some student)
    (hnear : ¬ haversine lat lng m.lat m.lng > 15)
    (hd : ¬ d.isEmpty = true)
    (hdev : student.device_id = none)
    (hok : deviceOk (setDevice st.students uid (some d))) :
    markAttendance st uid (some q) lat lng (some d) false =
      ({ st with students := setDevice st.students uid (some d) },
       .serverError) ∧
    (markAttendance st uid (some q) lat lng (some d) false).2 ≠
      MAResult.success ∧
    (markAttendance st uid (some q) lat lng (some d) false).1.attendance =
      st.attendance ∧
    MAResult.serverError.httpStatus = 500 := by
  have h : markAttendance st uid (some q) lat lng (some d) false =
      ({ st with students := setDevice st.students uid (some d) },
       .serverError) := by
    rw [markAttendance_near st uid q bus ts m lat lng (some d) false
      hdec hres hnear]
    rw [deviceGate_fresh st uid bus lat lng d student false hstud hd hdev hok]
    rfl
  refine ⟨h, ?_, by rw [h], rfl⟩
  rw [h]
  intro hcon
  cases hcon

/-- C6 witness: the fresh bind commits, the attendance commit fails, and the
response is the internal error. -/
theorem attendance_persist_failure_surfaced_witness :
    markAttendance demoState 1 (some "Bus-10_2024-01-01T10:00:00") 0 0
        (some "devA") false =
      ({ demoState with
          students := setDevice demoState.students 1 (some "devA") },
        .serverError) :=
  (attendance_persist_failure_surfaced demoState 1
    "Bus-10_2024-01-01T10:00:00" "Bus-10" "2024-01-01T10:00:00" ⟨0, 0⟩
    demoStudent 0 0 "devA" (by decide) rfl rfl haversine_origin_near
    (by decide) rfl (by decide)).1

/-- The device gate never commits a student table violating the unique
device constraint. -/
theorem deviceGate_preserves (st : SysState) (uid : ℕ) (bus : String)
    (lat lng : ℝ) (dev : Option String) (pk : Bool)
    (h : deviceOk st.students) :
    deviceOk (deviceGate st uid bus lat lng dev pk).1.students := by
  simp only [deviceGate]
  repeat' split
  all_goals first | exact h | simp_all

/-- The attendance handler never commits a student table violating the
unique device constraint. -/
theorem markAttendance_preserves (st : SysState) (uid : ℕ)
    (qr : Option String) (lat lng : ℝ) (dev : Option String) (pk : Bool)
    (h : deviceOk st.students) :
    deviceOk (markAttendance st uid qr lat lng dev pk).1.students := by
  simp only [markAttendance]
  repeat' split
  all_goals first
    | exact h
    | exact deviceGate_preserves _ _ _ _ _ _ _ h

/-- The login-time bind never commits a student table violating the unique
device constraint. -/
theorem loginBind_preserves (students : List StudentRec) (uid : ℕ)
    (dev : Option String) (sk : Bool) (h : deviceOk students) :
    deviceOk (loginBind students uid dev sk).1 := by
  simp only [loginBind]
  repeat' split
  all_goals first | exact h | simp_all

/-- Nulling a binding only removes entries from the device column. -/
theorem setDevice_none_sublist (students : List StudentRec) (uid : ℕ) :
    ((setDevice students uid none).filterMap fun s => s.device_id).Sublist
      (students.filterMap fun s => s.device_id) := by
  induction students with
  | nil => simp [setDevice]
  | cons s rest ih =>
    simp only [setDevice, List.map_cons, List.filterMap_cons] at *
    by_cases h : s.id = uid
    · rw [if_pos h]
      cases hd : s.device_id with
      | none => simpa using ih
      | some d => simpa using ih.cons d
    · rw [if_neg h]
      cases hd : s.device_id with
      | none => simpa [hd] using ih
      | some d => simpa [hd] using ih.cons₂ d

/-- The administrative reset preserves the unique device constraint. -/
theorem resetDevice_preserves (students : List StudentRec) (uid : ℕ)
    (h : deviceOk students) :
    deviceOk (resetDevice students uid).1 := by
  unfold resetDevice
  split
  · exact h
  · exact List.Nodup.sublist (setDevice_none_sublist students uid) h

/-- A bind whose committed table would violate uniqueness leaves the student
table of the attendance flow untouched (the commit raises and rolls back). -/
theorem deviceGate_collision_unchanged (st : SysState) (uid : ℕ)
    (bus : String) (lat lng : ℝ) (d : String) (pk : Bool)
    (hcol : ¬ deviceOk (setDevice st.students uid (some d))) :
    (deviceGate st uid bus lat lng (some d) pk).1.students = st.students := by
  simp only [deviceGate, Option.getD]
  repeat' split
  all_goals rfl

/-- Collision-bind inertness lifted to the whole attendance handler. -/
theorem markAttendance_collision_unchanged (st : SysState) (uid : ℕ)
    (qr : Option String) (lat lng : ℝ) (d : String) (pk : Bool)
    (hcol : ¬ deviceOk (setDevice st.students uid (some d))) :
    (markAttendance st uid qr lat lng (some d) pk).1.students =
      st.students := by
  simp only [markAttendance]
  repeat' split
  all_goals first
    | rfl
    | exact deviceGate_collision_unchanged _ _ _ _ _ _ _ hcol

/-- Collision-bind inertness for the login-time bind. -/
theorem loginBind_collision_unchanged (students : List StudentRec) (uid : ℕ)
    (d : String) (sk : Bool)
    (hcol : ¬ deviceOk (setDevice students uid (some d))) :
    (loginBind students uid (some d) sk).1 = students := by
  simp only [loginBind]
  repeat' split
  all_goals rfl

/-- C7: device exclusivity is an invariant: from any state satisfying the
unique-device constraint, the attendance flow, the login-time bind and the
administrative reset all lead to states satisfying it, and a bind whose
result would collide with another student's identifier does not change the
student table at all. -/
theorem device_exclusivity_invariant (st : SysState)
    (uid uidL uidR : ℕ) (qr : Option String) (lat lng : ℝ)
    (dev devL : Option String) (pk sk : Bool) (d : String)
    (h : deviceOk st.students) :
    deviceOk (markAttendance st uid qr lat lng dev pk).1.students ∧
    deviceOk (loginBind st.students uidL devL sk).1 ∧
    deviceOk (resetDevice st.students uidR).1 ∧
    (¬ deviceOk (setDevice st.students uid (some d)) →
      (markAttendance st uid qr lat lng (some d) pk).1.students =
        st.students ∧
      (loginBind st.students uid (some d) sk).1 = st.students) :=
  ⟨markAttendance_preserves st uid qr lat lng dev pk h,
    loginBind_preserves st.students uidL devL sk h,
    resetDevice_preserves st.students uidR h,
    fun hcol =>
      ⟨markAttendance_collision_unchanged st uid qr lat lng d pk hcol,
        loginBind_collision_unchanged st.students uid d sk hcol⟩⟩

/-- C7 witness: a two-student bound state; an attempt to rebind student 1 to
student 2's device does not alter the table. -/
theorem device_exclusivity_invariant_witness :
    deviceOk boundState.students ∧
    deviceOk (markAttendance boundState 1
      (some "Bus-10_2024-01-01T10:00:00") 0 0 (some "devA") true).1.students ∧
    ¬ deviceOk (setDevice boundState.students 1 (some "devB")) ∧
    (loginBind boundState.students 1 (some "devB") true).1 =
      boundState.students :=
  have h0 : deviceOk boundState.students := by decide
  have ht := device_exclusivity_invariant boundState 1 1 1
    (some "Bus-10_2024-01-01T10:00:00") 0 0 (some "devA") (some "devA")
    true true "devB" h0
  ⟨h0, ht.1, by decide, (ht.2.2.2 (by decide)).2⟩

/-- C8 counterexample: with the SMTP credentials missing from the
environment, a dispatch attempt fails (returns false) yet writes no
notification-log entry at all — refuting the claim that every failed
dispatch attempt produces exactly one Failed entry. -/
theorem failed_dispatch_without_log_entry :
    (sendParentEmail ⟨none, some "pw", true⟩ Transport.ok
        "parent@example.com" "student1" []).1 = false ∧
    (sendParentEmail ⟨none, some "pw", true⟩ Transport.ok
        "parent@example.com" "student1" []).2 = [] ∧
    countFailed (sendParentEmail ⟨none, some "pw", true⟩ Transport.ok
        "parent@example.com" "student1" []).2 = 0 :=
  ⟨rfl, rfl, rfl⟩

/-- C8 (amended): the notification outcome never alters the attendance
response or the committed state, and when SMTP is configured, email mode is
on and the recipient is valid, a transport failure after a successful
boarding appends exactly one Failed notification-log entry; failures before
a transmission is attempted (missing credentials, email mode off) append
none. -/
theorem notification_failure_isolated (st : SysState) (uid : ℕ)
    (qr : Option String) (lat lng : ℝ) (dev : Option String) (pk : Bool)
    (env : SmtpEnv) (tr : Transport) (logs : List NotifLog) :
    ((markAttendanceAndNotify st uid qr lat lng dev pk env tr logs).1 =
        (markAttendance st uid qr lat lng dev pk).1 ∧
      (markAttendanceAndNotify st uid qr lat lng dev pk env tr logs).2.1 =
        (markAttendance st uid qr lat lng dev pk).2) ∧
    (∀ e : String,
      pyFalsy env.smtp_user = false → pyFalsy env.smtp_pass = false →
      env.email_mode = true →
      emailValid (getParentEmail st uid) = true →
      (markAttendance st uid qr lat lng dev pk).2 = .success →
      (markAttendanceAndNotify st uid qr lat lng dev pk env
          (.err e) logs).2.2 =
        logs ++ [⟨getParentEmail st uid, "Email",
          boardingSubject (getStudentName st uid), "Failed", some e⟩]) := by
  constructor
  · simp only [markAttendanceAndNotify]
    constructor <;> (split <;> simp_all)
  · intro e hu hp hm hv hsucc
    simp only [markAttendanceAndNotify, hsucc]
    simp [sendParentEmail, hu, hp, hm, hv, logNotification]

/-- C8 witness: a simulated transport outage after a successful boarding:
the response is still success and exactly the one Failed entry is logged. -/
theorem notification_failure_isolated_witness :
    (markAttendanceAndNotify demoState 1 (some "Bus-10_2024-01-01T10:00:00")
        0 0 (some "devA") true ⟨some "user", some "pw", true⟩
        (.err "outage") []).2.1 = .success ∧
    (markAttendanceAndNotify demoState 1 (some "Bus-10_2024-01-01T10:00:00")
        0 0 (some "devA") true ⟨some "user", some "pw", true⟩
        (.err "outage") []).2.2 =
      [] ++ [⟨getParentEmail demoState 1, "Email",
        boardingSubject (getStudentName demoState 1), "Failed",
        some "outage"⟩] := by
  have hsucc : (markAttendance demoState 1
      (some "Bus-10_2024-01-01T10:00:00") 0 0 (some "devA") true).2 =
      .success := by
    rw [markAttendance_near demoState 1 "Bus-10_2024-01-01T10:00:00"
      "Bus-10" "2024-01-01T10:00:00" ⟨0, 0⟩ 0 0 (some "devA") true
      (by decide) rfl haversine_origin_near]
    rfl
  have ht := notification_failure_isolated demoState 1
    (some "Bus-10_2024-01-01T10:00:00") 0 0 (some "devA") true
    ⟨some "user", some "pw", true⟩ (.err "outage") []
  exact ⟨ht.1.2.trans hsucc,
    ht.2 "outage" rfl rfl rfl (by decide) hsucc⟩
